import Mathlib

/-!
Verification of the RunPod serverless TTS handler (`handler.py`).

The Python module holds two pieces of process-wide mutable state — a lazily
loaded engine handle `tts_model` and a voice-style cache `voice_styles` — and
three operations: `load_model`, `get_voice_style`, and the request `handler`.
We embed them as pure Lean functions over an explicit `CacheState`, with the
external world (filesystem contents, the external `helper` library, the
`soundfile` encoder) packaged in an `Env` record.  Python exceptions are
represented by the `Except PyExc` result channel; Python floats are modelled
exactly by rationals `ℚ`.
-/

namespace Supertonic

/-- Python exceptions distinguished by the handler's `except` clauses:
`FileNotFoundError` (raised by `load_model`, `get_voice_style` and by
`os.listdir` on a missing directory) and every other `Exception`. -/
inductive PyExc where
  | fileNotFound (msg : String)
  | other (msg : String)
deriving Repr, DecidableEq

/-- The message carried by the exception, `str(e)` in the source. -/
def PyExc.str : PyExc → String
  | .fileNotFound m => m
  | .other m => m

/-- Opaque per-voice style bundle returned by `helper.load_voice_style`. -/
structure Style where
  data : ℕ
deriving Repr, DecidableEq

/-- The engine handle returned by `helper.load_text_to_speech`: it exposes a
`sample_rate` attribute, and is callable as
`model(text, language, style, total_step, speed)`, returning a waveform
buffer of shape `(1, num_samples)` (a list of rows) and a duration array of
shape `(1,)` — or raising. -/
structure Engine where
  sample_rate : ℕ
  run : String → String → Style → ℤ → ℚ → Except PyExc (List (List ℚ) × List ℚ)

/-- The external world as the handler observes it: which files exist in the
ONNX artifact directory, the styles directory content (`none` = the directory
itself is missing, so `os.listdir` raises), the behaviour of the external
loaders, the behaviour of `soundfile.write` (whose successful result we
represent by the decoded sample list of the WAV bytes it produces), and the
operating-system message of the `FileNotFoundError` that `os.listdir` raises
when the styles directory is absent. -/
structure Env where
  onnxFiles : List String
  stylesDir : Option (List String)
  load_text_to_speech : Except PyExc Engine
  load_voice_style : String → Except PyExc Style
  sf_write : List ℚ → ℕ → Except PyExc (List ℚ)
  listdirError : String

/-- Constant `ONNX_DIR = "assets/onnx"`. -/
def ONNX_DIR : String := "assets/onnx"

/-- Constant `VOICE_STYLES_DIR = "assets/voice_styles"`. -/
def VOICE_STYLES_DIR : String := "assets/voice_styles"

/-- Existence check `os.path.exists(os.path.join(ONNX_DIR, f))`. -/
def Env.onnxExists (env : Env) (f : String) : Bool := env.onnxFiles.contains f

/-- Existence check `os.path.exists(os.path.join(VOICE_STYLES_DIR, name))`: a
path inside a missing directory does not exist. -/
def Env.styleFileExists (env : Env) (name : String) : Bool :=
  match env.stylesDir with
  | none => false
  | some fs => fs.contains name

/-- Directory scan `os.listdir(VOICE_STYLES_DIR)`: raises `FileNotFoundError`
with the operating-system message when the directory is missing. -/
def Env.listdirStyles (env : Env) : Except PyExc (List String) :=
  match env.stylesDir with
  | none => Except.error (PyExc.fileNotFound env.listdirError)
  | some fs => Except.ok fs

/-- The module-level mutable state: `tts_model` and `voice_styles`.  The
dictionary is an association list; lookups use the first (most recent)
binding, and insertions happen only for keys not yet present. -/
structure CacheState where
  tts_model : Option Engine
  voice_styles : List (String × Style)

/-- The state at cold start: `tts_model = None`, `voice_styles = {}`. -/
def CacheState.init : CacheState := ⟨none, []⟩

/-- The `required_files` list checked by `load_model`. -/
def required_files : List String :=
  ["duration_predictor.onnx", "text_encoder.onnx", "vector_estimator.onnx",
   "vocoder.onnx", "tts.json", "unicode_indexer.json"]

/-- Python `repr` of a string: single quotes around the content (exact for
names without quote or escape characters, which is all this module emits). -/
def pyStrRepr (s : String) : String := "\x27" ++ s ++ "\x27"

/-- Python `str`/f-string rendering of a list of strings, e.g.
`['en', 'ko', 'es', 'pt', 'fr']` — note the comma-space separator. -/
def pyListRepr (l : List String) : String :=
  "[" ++ String.intercalate ", " (l.map pyStrRepr) ++ "]"

/-- The `missing_files` list accumulated by `load_model`: every required file
absent from the artifact directory, in `required_files` order. -/
def missing_files (env : Env) : List String :=
  required_files.filter (fun f => !(env.onnxExists f))

/-- Message `f"Missing required model files: {missing_files}"`. -/
def missingArtifactMsg (missing : List String) : String :=
  "Missing required model files: " ++ pyListRepr missing

/-- Operation `load_model()`: returns the cached handle if set; otherwise checks every
required artifact file, raises `FileNotFoundError` listing all missing ones,
and only on a successful `load_text_to_speech` stores the handle. -/
def load_model (env : Env) (st : CacheState) : CacheState × Except PyExc Engine :=
  match st.tts_model with
  | some m => (st, Except.ok m)
  | none =>
      let missing := missing_files env
      if missing.isEmpty then
        match env.load_text_to_speech with
        | Except.ok m => ({ st with tts_model := some m }, Except.ok m)
        | Except.error e => (st, Except.error e)
      else
        (st, Except.error (PyExc.fileNotFound (missingArtifactMsg missing)))

/-- `replaceAllAux pat rep fuel l` replaces every non-overlapping occurrence
of `pat` in `l` left to right, structurally on `fuel`; with `fuel = l.length`
and `pat ≠ []` this is exactly Python's `str.replace` scan. -/
def replaceAllAux (pat rep : List Char) : ℕ → List Char → List Char
  | _, [] => []
  | 0, l => l
  | Nat.succ fuel, c :: rest =>
    if pat.isPrefixOf (c :: rest) then
      rep ++ replaceAllAux pat rep fuel ((c :: rest).drop pat.length)
    else
      c :: replaceAllAux pat rep fuel rest

/-- Python `s.replace(pat, rep)` for a non-empty pattern: every
non-overlapping occurrence is replaced, scanning left to right. -/
def pyReplace (s pat rep : String) : String :=
  ⟨replaceAllAux pat.data rep.data s.data.length s.data⟩

/-- Python `s.endswith(suffix)`. -/
def pyEndsWith (s suffix : String) : Bool := suffix.data.isSuffixOf s.data

/-- The availability list `get_voice_style` builds from a directory listing:
`[f.replace('.json', '') for f in os.listdir(VOICE_STYLES_DIR) if f.endswith('.json')]`.
Note `replace` removes every occurrence of `.json`, not only the suffix. -/
def codeAvailableVoices (fs : List String) : List String :=
  (fs.filter (fun f => pyEndsWith f ".json")).map (fun f => pyReplace f ".json" "")

/-- Message rendered by the f-string naming the voice and the availability
list in `get_voice_style`. -/
def unknownVoiceMsg (voice_name : String) (available : List String) : String :=
  "Voice style " ++ pyStrRepr voice_name ++ " not found. Available: " ++ pyListRepr available

/-- Path `os.path.join(VOICE_STYLES_DIR, f"{voice_name}.json")`. -/
def voicePath (voice_name : String) : String :=
  VOICE_STYLES_DIR ++ "/" ++ voice_name ++ ".json"

/-- Operation `get_voice_style(voice_name)`: returns the cached style when the key is
present; otherwise checks the style file's existence, on absence scans the
directory and raises `FileNotFoundError` naming the available voices, and
only on a successful `load_voice_style` inserts into the cache. -/
def get_voice_style (env : Env) (voice_name : String) (st : CacheState) :
    CacheState × Except PyExc Style :=
  match st.voice_styles.lookup voice_name with
  | some s => (st, Except.ok s)
  | none =>
      if env.styleFileExists (voice_name ++ ".json") then
        match env.load_voice_style (voicePath voice_name) with
        | Except.ok s =>
            ({ st with voice_styles := (voice_name, s) :: st.voice_styles }, Except.ok s)
        | Except.error e => (st, Except.error e)
      else
        match env.listdirStyles with
        | Except.ok fs =>
            (st, Except.error (PyExc.fileNotFound
              (unknownVoiceMsg voice_name (codeAvailableVoices fs))))
        | Except.error e => (st, Except.error e)

/-- The job object passed to the handler; `input` models `job.get("input", {})`. -/
structure JobInput where
  text : Option String := none
  language : Option String := none
  voice : Option String := none
  speed : Option ℚ := none
  total_step : Option ℤ := none

/-- A job: a map that may or may not carry the `"input"` key. -/
structure Job where
  input : Option JobInput := none

/-- The parameters after defaulting (`job_input.get(..., default)`). -/
structure Params where
  text : String
  language : String
  voice : String
  speed : ℚ
  total_step : ℤ

/-- Parameter extraction with the documented defaults, exactly as in the
source: an absent `"input"` key behaves as an empty map. -/
def handlerParams (job : Job) : Params :=
  let job_input := job.input.getD {}
  { text := job_input.text.getD "Hello, this is a test."
    language := job_input.language.getD "en"
    voice := job_input.voice.getD "M1"
    speed := job_input.speed.getD (1.05 : ℚ)
    total_step := job_input.total_step.getD 5 }

/-- List `available_langs = ["en", "ko", "es", "pt", "fr"]`. -/
def available_langs : List String := ["en", "ko", "es", "pt", "fr"]

/-- Message rendered by the f-string naming the rejected language and the
allowed set. -/
def invalidLanguageMsg (language : String) : String :=
  "Invalid language " ++ pyStrRepr language ++ ". Available: " ++ pyListRepr available_langs

/-- Python `int()` applied to an exact value: truncation toward zero. -/
def pyInt (q : ℚ) : ℤ := if 0 ≤ q then ⌊q⌋ else ⌈q⌉

/-- NumPy slice `row[:n]` with a possibly negative bound: a nonnegative bound
takes the first `n` elements (clamped to the length); a negative bound `-k`
drops the last `k`. -/
def pySliceTo (l : List ℚ) (n : ℤ) : List ℚ :=
  if 0 ≤ n then l.take n.toNat else l.take (l.length - (-n).toNat)

/-- The result a job receives: either the success payload
`{audio, duration, sample_rate}` (audio represented by the decoded sample
list of the base64 WAV blob) or `{error: message}`. -/
inductive HandlerResult where
  | success (audio : List ℚ) (duration : ℚ) (sample_rate : ℕ)
  | error (msg : String)
deriving Repr, DecidableEq

/-- The stateless tail of the `try:` block once engine and style are in hand:
`wav, duration = model(text, language, style, total_step, speed)`, the
`wav[0, :int(model.sample_rate * duration[0].item())]` trim, and the
`soundfile` / base64 encoding.  `wav[0]` and `duration[0]` on an empty axis
raise `IndexError` (an `Exception`); every step's exception propagates. -/
def synthStep (env : Env) (p : Params) (model : Engine) (style : Style) :
    Except PyExc (List ℚ × ℚ × ℕ) :=
  match model.run p.text p.language style p.total_step p.speed with
  | Except.error e => Except.error e
  | Except.ok (wav, duration) =>
    match duration.head? with
    | none => Except.error (PyExc.other "index 0 is out of bounds for axis 0 with size 0")
    | some d =>
      match wav.head? with
      | none => Except.error (PyExc.other "index 0 is out of bounds for axis 0 with size 0")
      | some row =>
        match env.sf_write (pySliceTo row (pyInt ((model.sample_rate : ℚ) * d))) model.sample_rate with
        | Except.error e => Except.error e
        | Except.ok audio => Except.ok (audio, d, model.sample_rate)

/-- The whole `try:` block of the handler — `load_model()`, then
`get_voice_style(voice)`, then the synthesis/encoding tail — threading the
cache state and propagating each step's possible exception. -/
def handlerTry (p : Params) (env : Env) (st : CacheState) :
    CacheState × Except PyExc (List ℚ × ℚ × ℕ) :=
  match load_model env st with
  | (st1, Except.error e) => (st1, Except.error e)
  | (st1, Except.ok model) =>
    match get_voice_style env p.voice st1 with
    | (st2, Except.error e) => (st2, Except.error e)
    | (st2, Except.ok style) => (st2, synthStep env p model style)

/-- Operation `handler(job)`: extracts parameters with defaults, rejects an invalid
language with an error result before entering the `try:` block, and converts
every exception raised inside the block into `{"error": str(e)}` via the
`except FileNotFoundError` / `except Exception` clauses. -/
def handler (job : Job) (env : Env) (st : CacheState) : CacheState × HandlerResult :=
  let p := handlerParams job
  if available_langs.contains p.language then
    match handlerTry p env st with
    | (st1, Except.ok (audio, d, sr)) => (st1, HandlerResult.success audio d sr)
    | (st1, Except.error e) => (st1, HandlerResult.error e.str)
  else
    (st, HandlerResult.error (invalidLanguageMsg p.language))

/-! Concrete fixtures used by counterexamples and witnesses. -/

/-- A concrete opaque style bundle. -/
def stubStyle : Style := ⟨0⟩

/-- A deterministic stub engine: sample rate `4`, waveform of length `L = 5`,
duration `11/16` seconds — so `sample_rate * duration = 11/4 = 2.75`, whose
truncation (`2`) and rounding (`3`) differ while both stay `≤ L`. -/
def stubEngine : Engine :=
  { sample_rate := 4
    run := fun _ _ _ _ _ => Except.ok ([[0, 0, 0, 0, 0]], [11/16]) }

/-- The operating-system message `os.listdir` raises for the missing styles
directory. -/
def osMissingDirMsg : String :=
  "[Errno 2] No such file or directory: " ++ pyStrRepr VOICE_STYLES_DIR

/-- A fully provisioned world: all six artifacts present, voice `M1`
present, loaders succeed, and `soundfile` faithfully stores exactly the
samples it is given. -/
def envFull : Env :=
  { onnxFiles := required_files
    stylesDir := some ["M1.json"]
    load_text_to_speech := Except.ok stubEngine
    load_voice_style := fun _ => Except.ok stubStyle
    sf_write := fun l _ => Except.ok l
    listdirError := osMissingDirMsg }

/-- The spec's concrete scenario: every artifact present except
`vocoder.onnx`. -/
def envMissingVocoder : Env :=
  { envFull with
    onnxFiles := ["duration_predictor.onnx", "text_encoder.onnx",
                  "vector_estimator.onnx", "tts.json", "unicode_indexer.json"] }

/-- A bare world: no artifacts, an empty styles directory. -/
def envEmptyFs : Env :=
  { envFull with onnxFiles := [], stylesDir := some [] }

/-- A styles directory holding the single file `a.json.json` — the style
file of the voice identifier `a.json`. -/
def envShadow : Env :=
  { envFull with stylesDir := some ["a.json.json"] }

/-- A world where the styles directory itself is missing. -/
def envNoStylesDir : Env :=
  { envFull with stylesDir := none }

/-- The job `{text: "Hi", language: "xx"}`. -/
def jobXX : Job := ⟨some { text := some "Hi", language := some "xx" }⟩

/-- A cache state in which the engine is already loaded. -/
def stateLoaded : CacheState := ⟨some stubEngine, []⟩

end Supertonic

namespace Supertonic

/-! General lemmas about the cache operations. -/

theorem load_model_cached (env : Env) (st : CacheState) (m : Engine)
    (h : st.tts_model = some m) : load_model env st = (st, Except.ok m) := by
  simp [load_model, h]

theorem load_model_styles (env : Env) (st : CacheState) :
    ((load_model env st).1).voice_styles = st.voice_styles := by
  simp only [load_model]
  split
  · rfl
  · split
    · split <;> rfl
    · rfl

theorem load_model_missing (env : Env) (st : CacheState)
    (h0 : st.tts_model = none)
    (h1 : (missing_files env).isEmpty = false) :
    load_model env st =
      (st, Except.error (PyExc.fileNotFound (missingArtifactMsg (missing_files env)))) := by
  simp [load_model, h0, h1]

theorem load_model_loads (env : Env) (st : CacheState) (m : Engine)
    (h0 : st.tts_model = none)
    (h1 : (missing_files env).isEmpty = true)
    (h2 : env.load_text_to_speech = Except.ok m) :
    load_model env st = ({ st with tts_model := some m }, Except.ok m) := by
  simp [load_model, h0, h1, h2]

theorem get_voice_style_cached (env : Env) (v : String) (st : CacheState) (s : Style)
    (h : st.voice_styles.lookup v = some s) :
    get_voice_style env v st = (st, Except.ok s) := by
  simp [get_voice_style, h]

theorem get_voice_style_tts (env : Env) (v : String) (st : CacheState) :
    ((get_voice_style env v st).1).tts_model = st.tts_model := by
  simp only [get_voice_style]
  split
  · rfl
  · split
    · split <;> rfl
    · split <;> rfl

theorem get_voice_style_lookup_mono (env : Env) (v : String) (st : CacheState)
    (w : String) (t : Style) (h : st.voice_styles.lookup w = some t) :
    ((get_voice_style env v st).1).voice_styles.lookup w = some t := by
  simp only [get_voice_style]
  split
  · exact h
  next hv =>
    split
    · split
      next s hs =>
        show List.lookup w ((v, s) :: st.voice_styles) = some t
        cases hbeq : (w == v) with
        | true =>
          have hwv : w = v := eq_of_beq hbeq
          rw [hwv] at h
          rw [hv] at h
          cases h
        | false => simpa [List.lookup, hbeq] using h
      next e he => exact h
    · split <;> exact h

theorem get_voice_style_insert (env : Env) (v : String) (st st' : CacheState) (s : Style)
    (h0 : st.voice_styles.lookup v = none)
    (h : get_voice_style env v st = (st', Except.ok s)) :
    env.load_voice_style (voicePath v) = Except.ok s ∧
    st' = { st with voice_styles := (v, s) :: st.voice_styles } := by
  simp only [get_voice_style, h0] at h
  split at h
  · split at h
    next s0 hs0 =>
      obtain ⟨h1, h2⟩ := Prod.mk.injEq .. ▸ h
      cases h2
      exact ⟨hs0, h1.symm⟩
    next e he => simp at h
  · split at h <;> simp at h

theorem get_voice_style_error (env : Env) (v : String) (st st' : CacheState) (e : PyExc)
    (h : get_voice_style env v st = (st', Except.error e)) : st' = st := by
  rcases hv : st.voice_styles.lookup v with _ | s
  · simp only [get_voice_style, hv] at h
    split at h
    · split at h
      · simp at h
      · exact (Prod.mk.injEq .. ▸ h).1.symm
    · split at h <;> exact (Prod.mk.injEq .. ▸ h).1.symm
  · rw [get_voice_style_cached env v st s hv] at h
    simp at h

theorem get_voice_style_notFound (env : Env) (v : String) (st : CacheState) (fs : List String)
    (h0 : st.voice_styles.lookup v = none)
    (h1 : env.styleFileExists (v ++ ".json") = false)
    (h2 : env.stylesDir = some fs) :
    get_voice_style env v st =
      (st, Except.error (PyExc.fileNotFound (unknownVoiceMsg v (codeAvailableVoices fs)))) := by
  simp [get_voice_style, h0, h1, Env.listdirStyles, h2]

theorem get_voice_style_noDir (env : Env) (v : String) (st : CacheState)
    (h0 : st.voice_styles.lookup v = none)
    (h1 : env.stylesDir = none) :
    get_voice_style env v st = (st, Except.error (PyExc.fileNotFound env.listdirError)) := by
  simp [get_voice_style, h0, Env.styleFileExists, h1, Env.listdirStyles]

theorem handlerTry_fst (p : Params) (env : Env) (st : CacheState) :
    (handlerTry p env st).1 = (load_model env st).1 ∨
    (handlerTry p env st).1 = (get_voice_style env p.voice (load_model env st).1).1 := by
  rcases h1 : load_model env st with ⟨st1, r1⟩
  cases r1 with
  | error e => left; simp [handlerTry, h1]
  | ok model =>
    right
    rcases h2 : get_voice_style env p.voice st1 with ⟨st2, r2⟩
    cases r2 <;> simp [handlerTry, h1, h2]

theorem handler_fst (job : Job) (env : Env) (st : CacheState) :
    (handler job env st).1 = st ∨
    (handler job env st).1 = (handlerTry (handlerParams job) env st).1 := by
  simp only [handler]
  split
  · right
    rcases h : handlerTry (handlerParams job) env st with ⟨st1, r⟩
    cases r with
    | ok x => rcases x with ⟨a, d, sr⟩; simp [h]
    | error e => simp [h]
  · left; rfl

theorem handler_tts_mono (job : Job) (env : Env) (st : CacheState) (m : Engine)
    (h : st.tts_model = some m) : ((handler job env st).1).tts_model = some m := by
  have hl : (load_model env st).1 = st := by rw [load_model_cached env st m h]
  rcases handler_fst job env st with hf | hf
  · rw [hf, h]
  · rw [hf]
    rcases handlerTry_fst (handlerParams job) env st with ht | ht
    · rw [ht, hl, h]
    · rw [ht, get_voice_style_tts, hl, h]

theorem handler_lookup_mono (job : Job) (env : Env) (st : CacheState)
    (w : String) (t : Style) (h : st.voice_styles.lookup w = some t) :
    ((handler job env st).1).voice_styles.lookup w = some t := by
  rcases handler_fst job env st with hf | hf
  · rw [hf]; exact h
  · rw [hf]
    rcases handlerTry_fst (handlerParams job) env st with ht | ht
    · rw [ht, load_model_styles]; exact h
    · rw [ht]
      apply get_voice_style_lookup_mono
      rw [load_model_styles]
      exact h

/-! Claim theorems. -/

/-- C1 (counterexample): the claim says the waveform is trimmed to
`round(sample_rate * duration)` samples.  With the stub engine (waveform
length `L = 5`, `sample_rate * duration = 11/4`), the rounded length is `3`
and `3 ≤ L`, yet the decoded audio in the successful response has `2`
samples — the code truncates via `int(...)` instead of rounding. -/
theorem C1_counterexample :
    (handler {} envFull CacheState.init).2 = HandlerResult.success [0, 0] (11/16) 4
    ∧ round ((stubEngine.sample_rate : ℚ) * (11/16)) = 3
    ∧ (3 : ℤ).toNat ≤ ([0, 0, 0, 0, 0] : List ℚ).length
    ∧ ([0, 0] : List ℚ).length ≠ (3 : ℤ).toNat := by
  have hmul : ((stubEngine.sample_rate : ℚ) * (11/16)) = 11/4 := by
    show ((4:ℕ) : ℚ) * (11/16) = 11/4
    norm_num
  refine ⟨?_, ?_, by decide, by decide⟩
  · simp [handler, handlerTry, synthStep, handlerParams, load_model, get_voice_style,
      missing_files, required_files, Env.onnxExists, Env.styleFileExists, available_langs,
      envFull, CacheState.init, stubEngine, pyInt, pySliceTo, hmul]
    norm_num
    rfl
  · rw [hmul, round_eq]
    norm_num

/-- C1 (amended): for every successful synthesis the waveform returned by the
engine is trimmed to exactly `int(sample_rate * duration)` samples — Python
`int` truncation toward zero, not rounding — taken from index `0`, so for a
stub engine returning a waveform of length `L` with a truncated length
`T ≤ L`, the decoded audio in the response has exactly `T` samples. -/
theorem C1_amended (job : Job) (env : Env) (st st1 st2 : CacheState)
    (model : Engine) (style : Style) (row : List ℚ) (d : ℚ)
    (h0 : available_langs.contains (handlerParams job).language = true)
    (h1 : load_model env st = (st1, Except.ok model))
    (h2 : get_voice_style env (handlerParams job).voice st1 = (st2, Except.ok style))
    (h3 : model.run (handlerParams job).text (handlerParams job).language style
            (handlerParams job).total_step (handlerParams job).speed = Except.ok ([row], [d]))
    (h4 : ∀ l sr, env.sf_write l sr = Except.ok l)
    (h5 : 0 ≤ pyInt ((model.sample_rate : ℚ) * d))
    (h6 : (pyInt ((model.sample_rate : ℚ) * d)).toNat ≤ row.length) :
    handler job env st =
      (st2, HandlerResult.success (row.take (pyInt ((model.sample_rate : ℚ) * d)).toNat)
        d model.sample_rate)
    ∧ (row.take (pyInt ((model.sample_rate : ℚ) * d)).toNat).length
        = (pyInt ((model.sample_rate : ℚ) * d)).toNat := by
  have hm : (handlerParams job).language ∈ available_langs := by simpa using h0
  have hslice : pySliceTo row (pyInt ((model.sample_rate : ℚ) * d))
      = row.take (pyInt ((model.sample_rate : ℚ) * d)).toNat := by
    simp [pySliceTo, h5]
  have hsynth : synthStep env (handlerParams job) model style
      = Except.ok (row.take (pyInt ((model.sample_rate : ℚ) * d)).toNat, d, model.sample_rate) := by
    simp [synthStep, h3, hslice, h4]
  have ht : handlerTry (handlerParams job) env st
      = (st2, Except.ok (row.take (pyInt ((model.sample_rate : ℚ) * d)).toNat, d,
          model.sample_rate)) := by
    simp [handlerTry, h1, h2, hsynth]
  constructor
  · simp [handler, hm, ht]
  · rw [List.length_take]
    exact min_eq_left h6

/-- C1 (witness): concrete instance of the amended claim — the stub engine
yields a length-5 waveform and `int(4 * 11/16) = 2`, and the response holds
exactly the first two samples. -/
theorem C1_amended_witness :
    handler {} envFull CacheState.init =
      (⟨some stubEngine, [("M1", stubStyle)]⟩, HandlerResult.success [0, 0] (11/16) 4) := by
  have hmul : ((stubEngine.sample_rate : ℚ) * (11/16)) = 11/4 := by
    show ((4:ℕ) : ℚ) * (11/16) = 11/4
    norm_num
  have hp : pyInt ((stubEngine.sample_rate : ℚ) * (11/16)) = 2 := by
    rw [hmul, pyInt]
    norm_num
  have h := C1_amended {} envFull CacheState.init ⟨some stubEngine, []⟩
      ⟨some stubEngine, [("M1", stubStyle)]⟩ stubEngine stubStyle [0, 0, 0, 0, 0] (11/16)
      rfl rfl rfl rfl (fun l sr => rfl) (by rw [hp]; decide) (by rw [hp]; decide)
  rw [h.1, hp]
  rfl

/-- C2 (confirmed): for every job, environment and cache state, the handler
returns a plain result: an invalid language yields the error result before
the `try:` block; every exception the `try:` block raises (missing
artifacts, unknown voice, engine or encoding fault) is converted into
`{error: str(e)}`; a successful block yields the success payload.  No
exception propagates out of the handler uncaught. -/
theorem C2_handler_total (job : Job) (env : Env) (st : CacheState) :
    (available_langs.contains (handlerParams job).language = true →
      ∀ st1 e, handlerTry (handlerParams job) env st = (st1, Except.error e) →
        handler job env st = (st1, HandlerResult.error (PyExc.str e)))
    ∧ (available_langs.contains (handlerParams job).language = true →
      ∀ st1 audio d sr, handlerTry (handlerParams job) env st = (st1, Except.ok (audio, d, sr)) →
        handler job env st = (st1, HandlerResult.success audio d sr))
    ∧ (available_langs.contains (handlerParams job).language = false →
        handler job env st = (st, HandlerResult.error (invalidLanguageMsg (handlerParams job).language))) := by
  refine ⟨?_, ?_, ?_⟩
  · intro hc st1 e ht
    have hm : (handlerParams job).language ∈ available_langs := by simpa using hc
    simp [handler, hm, ht]
  · intro hc st1 audio d sr ht
    have hm : (handlerParams job).language ∈ available_langs := by simpa using hc
    simp [handler, hm, ht]
  · intro hc
    have hm : (handlerParams job).language ∉ available_langs := by simpa using hc
    simp [handler, hm]

/-- C2 (witness): on a bare filesystem the `try:` block raises
`FileNotFoundError` for the six missing artifacts and the handler returns it
as an error result. -/
theorem C2_witness :
    handler {} envEmptyFs CacheState.init =
      (CacheState.init,
        HandlerResult.error (PyExc.str (PyExc.fileNotFound (missingArtifactMsg (missing_files envEmptyFs))))) :=
  (C2_handler_total {} envEmptyFs CacheState.init).1 rfl CacheState.init
    (PyExc.fileNotFound (missingArtifactMsg (missing_files envEmptyFs))) rfl

/-- C3 (counterexample): the claim's quoted message has no spaces after the
commas, but Python's f-string rendering of the list inserts a comma-space
separator, so the job `{text: "Hi", language: "xx"}` produces
`Invalid language 'xx'. Available: ['en', 'ko', 'es', 'pt', 'fr']` and not
the claim's literal. -/
theorem C3_counterexample :
    (handler jobXX envEmptyFs CacheState.init).2 =
      HandlerResult.error "Invalid language \x27xx\x27. Available: [\x27en\x27, \x27ko\x27, \x27es\x27, \x27pt\x27, \x27fr\x27]"
    ∧ (handler jobXX envEmptyFs CacheState.init).2 ≠
      HandlerResult.error "Invalid language \x27xx\x27. Available: [\x27en\x27,\x27ko\x27,\x27es\x27,\x27pt\x27,\x27fr\x27]" := by
  constructor
  · rfl
  · decide

/-- C3 (amended): for every job whose (defaulted) language is not in the
allowed list, the handler — for every environment and state, so the engine
is never loaded or invoked — returns the error result naming the rejected
value and the complete allowed set, rendered with comma-space separators:
`['en', 'ko', 'es', 'pt', 'fr']`. -/
theorem C3_amended (job : Job) (env : Env) (st : CacheState)
    (h : available_langs.contains (handlerParams job).language = false) :
    handler job env st = (st, HandlerResult.error (invalidLanguageMsg (handlerParams job).language))
    ∧ pyListRepr available_langs = "[\x27en\x27, \x27ko\x27, \x27es\x27, \x27pt\x27, \x27fr\x27]" := by
  constructor
  · have hm : (handlerParams job).language ∉ available_langs := by simpa using h
    simp [handler, hm]
  · rfl

/-- C3 (witness): the concrete scenario `{text: "Hi", language: "xx"}`. -/
theorem C3_amended_witness :
    handler jobXX envEmptyFs CacheState.init =
      (CacheState.init, HandlerResult.error (invalidLanguageMsg "xx")) :=
  (C3_amended jobXX envEmptyFs CacheState.init rfl).1

/-- C4 (confirmed): when the engine is not cached and artifacts are missing,
`load_model` fails with an error listing every missing filename (the
`missing_files` list holds exactly the required files absent from the
directory), the state is unchanged (nothing cached), and a retried call
against a directory with all files present succeeds and caches the engine. -/
theorem C4_missing_artifacts (env env2 : Env) (st : CacheState) (m : Engine)
    (h0 : st.tts_model = none)
    (h1 : missing_files env ≠ [])
    (h2 : missing_files env2 = [])
    (h3 : env2.load_text_to_speech = Except.ok m) :
    load_model env st =
      (st, Except.error (PyExc.fileNotFound (missingArtifactMsg (missing_files env))))
    ∧ (∀ f, f ∈ missing_files env ↔ f ∈ required_files ∧ env.onnxExists f = false)
    ∧ load_model env2 st = ({ st with tts_model := some m }, Except.ok m) := by
  refine ⟨?_, ?_, ?_⟩
  · apply load_model_missing env st h0
    cases hm : missing_files env with
    | nil => exact absurd hm h1
    | cons a l => rfl
  · intro f
    simp [missing_files, List.mem_filter]
  · apply load_model_loads env2 st m h0 _ h3
    rw [h2]
    rfl

/-- C4 (witness): the spec's concrete scenario — only `vocoder.onnx`
missing — fails listing exactly `['vocoder.onnx']` without caching, and the
retry against the full directory loads and caches the engine. -/
theorem C4_witness :
    load_model envMissingVocoder CacheState.init =
      (CacheState.init,
        Except.error (PyExc.fileNotFound "Missing required model files: [\x27vocoder.onnx\x27]"))
    ∧ load_model envFull CacheState.init =
      ({ CacheState.init with tts_model := some stubEngine }, Except.ok stubEngine) := by
  have h := C4_missing_artifacts envMissingVocoder envFull CacheState.init stubEngine rfl
    (by decide) (by decide) rfl
  exact ⟨h.1, h.2.2⟩

/-- C5 (counterexample): with the styles directory holding the single file
`a.json.json` — the style file of voice identifier `a.json` — requesting the
absent voice `b` produces a message listing `['a']`, although voice `a` has
no style file and voice `a.json` (which has one) is not listed: the message
does not list exactly the voice identifiers with style files, because
`f.replace('.json', '')` strips every occurrence, not only the suffix. -/
theorem C5_counterexample :
    (get_voice_style envShadow "b" CacheState.init).2 =
      Except.error (PyExc.fileNotFound "Voice style \x27b\x27 not found. Available: [\x27a\x27]")
    ∧ envShadow.styleFileExists ("a.json" ++ ".json") = true
    ∧ envShadow.styleFileExists ("a" ++ ".json") = false := by
  refine ⟨rfl, by decide, by decide⟩

/-- C5 (amended): for every voice identifier whose style file is absent from
the (existing) styles directory, `get_voice_style` fails with an error whose
message lists, for each `.json` file present, the filename with every
occurrence of `.json` removed (equal to the voice identifiers with style
files whenever no filename contains `.json` inside its stem), and nothing is
cached for that identifier. -/
theorem C5_amended (env : Env) (v : String) (st : CacheState) (fs : List String)
    (h0 : st.voice_styles.lookup v = none)
    (h1 : env.styleFileExists (v ++ ".json") = false)
    (h2 : env.stylesDir = some fs) :
    get_voice_style env v st =
      (st, Except.error (PyExc.fileNotFound (unknownVoiceMsg v (codeAvailableVoices fs)))) :=
  get_voice_style_notFound env v st fs h0 h1 h2

/-- C5 (witness): requesting voice `b` against the directory holding
`a.json.json` yields the availability list `['a']` and leaves the cache
untouched. -/
theorem C5_amended_witness :
    get_voice_style envShadow "b" CacheState.init =
      (CacheState.init, Except.error (PyExc.fileNotFound (unknownVoiceMsg "b" ["a"]))) :=
  C5_amended envShadow "b" CacheState.init ["a.json.json"] rfl rfl rfl

/-- C6 (confirmed): once the engine handle is cached, a second `load_model`
call returns the identical cached handle with the state unchanged — for
every environment, so no file-existence check influences the result — and
neither `get_voice_style` nor a whole `handler` call ever replaces the
non-null handle. -/
theorem C6_engine_cached (env : Env) (st : CacheState) (m : Engine) (job : Job) (v : String)
    (h : st.tts_model = some m) :
    load_model env st = (st, Except.ok m)
    ∧ ((get_voice_style env v st).1).tts_model = some m
    ∧ ((handler job env st).1).tts_model = some m := by
  refine ⟨load_model_cached env st m h, ?_, handler_tts_mono job env st m h⟩
  rw [get_voice_style_tts, h]

/-- C6 (witness): the stub engine cached in the state is returned as-is and
survives a style lookup and a full handler call. -/
theorem C6_witness :
    load_model envFull stateLoaded = (stateLoaded, Except.ok stubEngine)
    ∧ ((get_voice_style envFull "M1" stateLoaded).1).tts_model = some stubEngine
    ∧ ((handler {} envFull stateLoaded).1).tts_model = some stubEngine :=
  C6_engine_cached envFull stateLoaded stubEngine {} "M1" rfl

/-- C7 (confirmed): a cached voice returns the identical cached object with
the state unchanged; a new cache entry appears only together with a
successful `load_voice_style` result (failed existence checks and failed
loads insert nothing and leave the state unchanged); and an entry, once
present, is preserved unchanged by every later handler call. -/
theorem C7_style_cache (env : Env) (v : String) (st : CacheState) :
    (∀ s, st.voice_styles.lookup v = some s → get_voice_style env v st = (st, Except.ok s))
    ∧ (∀ st' s, st.voice_styles.lookup v = none →
        get_voice_style env v st = (st', Except.ok s) →
          env.load_voice_style (voicePath v) = Except.ok s ∧
          st' = { st with voice_styles := (v, s) :: st.voice_styles })
    ∧ (∀ st' e, get_voice_style env v st = (st', Except.error e) → st' = st)
    ∧ (∀ job w t, st.voice_styles.lookup w = some t →
        ((handler job env st).1).voice_styles.lookup w = some t) := by
  refine ⟨?_, ?_, ?_, ?_⟩
  · intro s h; exact get_voice_style_cached env v st s h
  · intro st' s h0 h; exact get_voice_style_insert env v st st' s h0 h
  · intro st' e h; exact get_voice_style_error env v st st' e h
  · intro job w t h; exact handler_lookup_mono job env st w t h

/-- C7 (witness): a cached `M1` entry is returned unchanged, and a cold
lookup of `M1` inserts exactly the successfully loaded style. -/
theorem C7_witness :
    (get_voice_style envFull "M1" ⟨none, [("M1", stubStyle)]⟩ =
      (⟨none, [("M1", stubStyle)]⟩, Except.ok stubStyle))
    ∧ (envFull.load_voice_style (voicePath "M1") = Except.ok stubStyle
        ∧ (⟨none, [("M1", stubStyle)]⟩ : CacheState) =
            { CacheState.init with voice_styles := [("M1", stubStyle)] }) := by
  constructor
  · exact (C7_style_cache envFull "M1" ⟨none, [("M1", stubStyle)]⟩).1 stubStyle rfl
  · exact (C7_style_cache envFull "M1" CacheState.init).2.1 ⟨none, [("M1", stubStyle)]⟩
      stubStyle rfl rfl

/-- C8 (confirmed): every absent field of the job input is replaced by its
documented default — text by the fixed placeholder sentence, language by
`en`, voice by `M1`, speed by `1.05`, step count by `5` — before any
validation or synthesis: the handler behaves identically on the original
input and on the input with the defaults filled in. -/
theorem C8_defaults (i : JobInput) (env : Env) (st : CacheState) :
    handlerParams ⟨some i⟩ =
      { text := i.text.getD "Hello, this is a test."
        language := i.language.getD "en"
        voice := i.voice.getD "M1"
        speed := i.speed.getD (1.05 : ℚ)
        total_step := i.total_step.getD 5 }
    ∧ handler ⟨some i⟩ env st =
        handler ⟨some
          { text := some (i.text.getD "Hello, this is a test.")
            language := some (i.language.getD "en")
            voice := some (i.voice.getD "M1")
            speed := some (i.speed.getD (1.05 : ℚ))
            total_step := some (i.total_step.getD 5) }⟩ env st :=
  ⟨rfl, rfl⟩

/-- C9 (confirmed): a job lacking the `input` key entirely is processed
exactly like a job with an explicit empty input map — every field takes its
default and processing proceeds instead of failing. -/
theorem C9_missing_input (env : Env) (st : CacheState) :
    handler ⟨none⟩ env st = handler ⟨some {}⟩ env st
    ∧ handlerParams ⟨none⟩ =
        { text := "Hello, this is a test.", language := "en", voice := "M1",
          speed := (1.05 : ℚ), total_step := 5 } :=
  ⟨rfl, rfl⟩

/-- C10 (confirmed): when the styles directory does not exist and the
requested voice is not cached, the directory scan raises, the handler still
returns an error result — the `FileNotFoundError` is caught at the handler
boundary — and the message is the operating-system error for the missing
directory, not an enumeration of available voice identifiers. -/
theorem C10_missing_styles_dir (job : Job) (env : Env) (st : CacheState) (m : Engine)
    (h0 : env.stylesDir = none)
    (h1 : st.tts_model = some m)
    (h2 : st.voice_styles.lookup (handlerParams job).voice = none)
    (h3 : available_langs.contains (handlerParams job).language = true) :
    handler job env st = (st, HandlerResult.error env.listdirError) := by
  have hl := load_model_cached env st m h1
  have hg := get_voice_style_noDir env (handlerParams job).voice st h2 h0
  have ht : handlerTry (handlerParams job) env st =
      (st, Except.error (PyExc.fileNotFound env.listdirError)) := by
    simp [handlerTry, hl, hg]
  have hm : (handlerParams job).language ∈ available_langs := by simpa using h3
  simp [handler, hm, ht, PyExc.str]

/-- C10 (witness): with the styles directory missing and the engine already
cached, the default job yields the operating-system error message. -/
theorem C10_witness :
    handler {} envNoStylesDir stateLoaded = (stateLoaded, HandlerResult.error osMissingDirMsg) :=
  C10_missing_styles_dir {} envNoStylesDir stateLoaded stubEngine rfl rfl rfl rfl

end Supertonic
